import Mathlib

/-!
# Verification of the KuberAI gold-investment client controllers

Shallow embedding of the two browser-side controller variants of the
repository: `KuberAI` (the primary variant) and `GoldChatBot` (the
simpler variant, `static/script.js`).

JavaScript numbers are modelled as exact rational values.  Because the
standard-library rational operations are `@[irreducible]` (so no
concrete computation can be checked by the kernel), the embedding uses
its own executable fraction type `JSNum` — an integer numerator and a
positive integer denominator, not reduced to lowest terms — together
with bridging lemmas (`JSNum.toRat_mul`, `JSNum.toRat_add`,
`JSNum.toRat_div`, `JSNum.lt_iff`, `JSNum.le_iff`) showing the
operations and the order agree with the Mathlib rationals.

A value that may be JavaScript `NaN` (the result of `parseFloat` on a
non-numeric string, or a stored price that was overwritten with a
non-number) is modelled as `Option JSNum`, with `none` standing for
`NaN` or a missing value.  The one place where IEEE division by zero
is reachable (the unguarded division of the simpler variant) is
modelled explicitly.
-/

set_option autoImplicit false

/-- An exact JavaScript number value: an integer fraction `num / den`
with `den > 0`, not necessarily in lowest terms.  All operations are
plain integer arithmetic, so the kernel can evaluate them. -/
structure JSNum where
  num : ℤ
  den : ℤ
  den_pos : 0 < den
deriving DecidableEq, Repr

instance (n : ℕ) : OfNat JSNum n := ⟨⟨n, 1, one_pos⟩⟩

instance : LT JSNum := ⟨fun a b => a.num * b.den < b.num * a.den⟩

instance : LE JSNum := ⟨fun a b => a.num * b.den ≤ b.num * a.den⟩

instance : DecidableRel (fun (a b : JSNum) => a < b) := fun _ _ => by
  unfold LT.lt instLTJSNum; infer_instance

instance : DecidableRel (fun (a b : JSNum) => a ≤ b) := fun _ _ => by
  unfold LE.le instLEJSNum; infer_instance

/-- The Mathlib rational denoted by a `JSNum`. -/
def JSNum.toRat (a : JSNum) : ℚ := (a.num : ℚ) / (a.den : ℚ)

/-- Negation. -/
def JSNum.neg (a : JSNum) : JSNum := ⟨-a.num, a.den, a.den_pos⟩

/-- Addition (denominators multiply; no reduction). -/
def JSNum.add (a b : JSNum) : JSNum :=
  ⟨a.num * b.den + b.num * a.den, a.den * b.den, mul_pos a.den_pos b.den_pos⟩

/-- Multiplication (no reduction). -/
def JSNum.mul (a b : JSNum) : JSNum :=
  ⟨a.num * b.num, a.den * b.den, mul_pos a.den_pos b.den_pos⟩

/-- Division.  The divisor-zero case is junk (`0`); every division in
the embedded code is guarded so that the divisor is nonzero, except the
simpler variant's quote division, which is modelled separately. -/
def JSNum.div (a b : JSNum) : JSNum :=
  if h : b.num = 0 then ⟨0, 1, one_pos⟩
  else ⟨a.num * b.den * b.num.sign, a.den * |b.num|,
        mul_pos a.den_pos (abs_pos.mpr h)⟩

/-- Model of JavaScript `String.prototype.trim`: drop whitespace from
both ends.  (Implemented over the character list because the library
`String.trim` is defined by well-founded recursion on byte positions,
which the kernel cannot evaluate.) -/
def jsTrim (s : String) : String :=
  String.mk
    (((s.data.dropWhile Char.isWhitespace).reverse.dropWhile Char.isWhitespace).reverse)

/-- One decimal digit, or `none` for a non-digit character. -/
def digitVal (c : Char) : Option ℕ :=
  if '0' ≤ c ∧ c ≤ '9' then some (c.toNat - '0'.toNat) else none

/-- Consume a maximal run of decimal digits, extending the accumulated
value `acc` and digit count `cnt`; returns the value, the count and
the remaining characters. -/
def takeDigits : ℕ → ℕ → List Char → ℕ × ℕ × List Char
  | acc, cnt, [] => (acc, cnt, [])
  | acc, cnt, c :: cs =>
    match digitVal c with
    | some d => takeDigits (acc * 10 + d) (cnt + 1) cs
    | none => (acc, cnt, c :: cs)

/-- Model of JavaScript `parseFloat` on decimal literals: skip leading
whitespace, read an optional sign, an integer part, an optional
fractional part and an optional exponent, ignoring trailing garbage;
`none` (JavaScript `NaN`) when no digit was read.  (The special
literals `Infinity` / `-Infinity` are outside the model: the embedding
works with finite values, which is all the claims quantify over.) -/
def parseFloat (s : String) : Option JSNum :=
  let cs := s.data.dropWhile fun c => c = ' ' ∨ c = '\t' ∨ c = '\n' ∨ c = '\r'
  let signAndRest : ℤ × List Char :=
    match cs with
    | '-' :: rest => (-1, rest)
    | '+' :: rest => (1, rest)
    | _ => (1, cs)
  let (ip, ic, cs2) := takeDigits 0 0 signAndRest.2
  let fracPart : ℕ × ℕ × List Char :=
    match cs2 with
    | '.' :: rest => takeDigits 0 0 rest
    | _ => (0, 0, cs2)
  let (fp, fc, cs3) := fracPart
  if ic = 0 ∧ fc = 0 then none
  else
    let mant : JSNum :=
      ⟨signAndRest.1 * ((ip : ℤ) * 10 ^ fc + (fp : ℤ)), (10 : ℤ) ^ fc,
       pow_pos (by norm_num) fc⟩
    let value : JSNum :=
      match cs3 with
      | e :: rest =>
        if e = 'e' ∨ e = 'E' then
          let esignAndRest : Bool × List Char :=
            match rest with
            | '-' :: r => (true, r)
            | '+' :: r => (false, r)
            | _ => (false, rest)
          let (ev, ec, _) := takeDigits 0 0 esignAndRest.2
          if ec = 0 then mant
          else if esignAndRest.1 then
            ⟨mant.num, mant.den * 10 ^ ev,
             mul_pos mant.den_pos (pow_pos (by norm_num) ev)⟩
          else
            ⟨mant.num * 10 ^ ev, mant.den, mant.den_pos⟩
        else mant
      | [] => mant
    some value

/-- Left-pad a digit string with zeros to length `n`. -/
def padLeftZeros (s : String) (n : ℕ) : String :=
  String.mk (List.replicate (n - s.length) '0') ++ s

/-- Model of JavaScript `Number.prototype.toFixed` on a `JSNum`: round
to `f` decimal places — the rounded integer is
`⌊q·10^f + 1/2⌋ = (2·num·10^f + den).fdiv (2·den)`, ties toward `+∞`
as ECMAScript specifies — and print with exactly `f` digits after the
point. -/
def toFixed (f : ℕ) (q : JSNum) : String :=
  let n : ℤ := Int.fdiv (2 * q.num * 10 ^ f + q.den) (2 * q.den)
  let m : ℕ := n.natAbs
  let ipart := m / 10 ^ f
  let fpart := m % 10 ^ f
  let signStr := if n < 0 then "-" else ""
  if f = 0 then signStr ++ toString ipart
  else signStr ++ toString ipart ++ "." ++ padLeftZeros (toString fpart) f

/-- The hardcoded fallback gold price of the primary variant
(`this.goldPriceINR = 5469.25`). -/
def fallbackPriceINR : JSNum := ⟨546925, 100, by norm_num⟩

/-- The 3 % GST rate (`const gstRate = 0.03`). -/
def gstRate : JSNum := ⟨3, 100, by norm_num⟩

/-- Result of one call to `KuberAI.updateGoldCalculation`: the stored
gold price after the call (the guard may have re-armed the fallback)
and the four display texts it writes.  The function performs no
network request and throws nothing; its whole effect is this record. -/
structure CalcResult where
  goldPriceINR : JSNum
  pricePerGramText : String
  goldAmountText : String
  gstText : String
  totalText : String
deriving DecidableEq, Repr

/-- `KuberAI.updateGoldCalculation`: guard the stored price (missing,
`NaN` or ≤ 0 is replaced by the fallback), trim and parse the amount
field, reset the three derived displays to the idle state on empty /
non-numeric / non-positive input, and otherwise render
`gst = amount * 0.03`, `total = amount + gst`, `grams = amount / price`
with 2 / 2 / 4 fixed decimal places.  (The source's final
`isNaN` / `isFinite` re-check of the derived values cannot fire in
this model: after the guard the divisor is positive and all values are
finite.) -/
def KuberAI.updateGoldCalculation (goldPriceINR : Option JSNum)
    (amountField : String) : CalcResult :=
  let price : JSNum :=
    match goldPriceINR with
    | none => fallbackPriceINR
    | some p => if p ≤ 0 then fallbackPriceINR else p
  let priceText := "₹" ++ toFixed 2 price
  let inputValue := jsTrim amountField
  match parseFloat inputValue with
  | none =>
    { goldPriceINR := price, pricePerGramText := priceText,
      goldAmountText := "0 grams (₹0.00)", gstText := "₹0.00", totalText := "₹0.00" }
  | some amountINR =>
    if amountINR ≤ 0 then
      { goldPriceINR := price, pricePerGramText := priceText,
        goldAmountText := "0 grams (₹0.00)", gstText := "₹0.00", totalText := "₹0.00" }
    else
      let gstAmount := amountINR.mul gstRate
      let totalAmount := amountINR.add gstAmount
      let goldGrams := amountINR.div price
      { goldPriceINR := price, pricePerGramText := priceText,
        goldAmountText := toFixed 4 goldGrams ++ " grams (₹" ++ toFixed 2 amountINR ++ ")",
        gstText := "₹" ++ toFixed 2 gstAmount,
        totalText := "₹" ++ toFixed 2 totalAmount }

/-- The initial (and only hardcoded) gold price of the simpler variant
(`this.goldPrice = 65.50`). -/
def initialPriceUSD : JSNum := ⟨6550, 100, by norm_num⟩

/-- `GoldChatBot.updateGoldCalculation` (simpler variant):
`amount = parseFloat(value) || 0; goldGrams = amount / goldPrice;`
then write `goldGrams.toFixed(4) + " grams"`.  There is no guard on
the stored price and the stored price is not modified: a missing /
`NaN` price yields a `NaN` display and a zero price yields an IEEE
`Infinity` display.  Returns the text written to the grams display. -/
def GoldChatBot.updateGoldCalculation (goldPrice : Option JSNum)
    (amountField : String) : String :=
  let amount : JSNum := (parseFloat amountField).getD 0
  match goldPrice with
  | none => "NaN grams"
  | some p =>
    if p.num = 0 then
      if amount.num = 0 then "NaN grams"
      else if 0 < amount.num then "Infinity grams"
      else "-Infinity grams"
    else toFixed 4 (amount.div p) ++ " grams"

/-- The `catch` branch of `KuberAI.updateGoldPrice`: a failed price
fetch re-arms the hardcoded fallback
(`this.goldPriceINR = 5469.25`). -/
def KuberAI.updateGoldPriceOnError (_goldPriceINR : Option JSNum) : Option JSNum :=
  some fallbackPriceINR

/-- The `catch` branch of `GoldChatBot.updateGoldPrice`: the error is
only logged; the stored price is left unchanged. -/
def GoldChatBot.updateGoldPriceOnError (goldPrice : Option JSNum) : Option JSNum :=
  goldPrice

/-- Chat message author. -/
inductive Sender
  | user
  | bot
deriving DecidableEq, Repr

/-- One chat-log entry (a rendered message node). -/
structure ChatMsg where
  text : String
  sender : Sender
  purchaseSuggestion : Bool
deriving DecidableEq, Repr

/-- Chat-related controller state: the chat log (append-only), the
composer field, and whether the typing placeholder is shown. -/
structure ChatState where
  messages : List ChatMsg
  composerValue : String
  typingIndicator : Bool
deriving DecidableEq, Repr

/-- Body of a `/chat` POST. -/
structure ChatRequest where
  message : String
  user_id : String
deriving DecidableEq, Repr

/-- How the asynchronous part of a send-message operation resolves:
a parsed response, or a network / parse error (the `catch` branch). -/
inductive ChatOutcome
  | ok (response : String) (purchase_encouraged : Bool)
  | error
deriving DecidableEq, Repr

/-- `addMessage`: append one message node to the chat log; the
purchase call-to-action is attached only when requested for a bot
message. -/
def addMessage (st : ChatState) (text : String) (sender : Sender)
    (showPurchaseButton : Bool) : ChatState :=
  { st with messages :=
      st.messages ++ [⟨text, sender, showPurchaseButton && sender == Sender.bot⟩] }

/-- `showTypingIndicator`: add the typing placeholder node. -/
def showTypingIndicator (st : ChatState) : ChatState :=
  { st with typingIndicator := true }

/-- `hideTypingIndicator`: remove the typing placeholder node if
present. -/
def hideTypingIndicator (st : ChatState) : ChatState :=
  { st with typingIndicator := false }

/-- The fixed apology text of the primary variant's `catch` branch. -/
def apologyKuberAI : String :=
  "I apologize, but I encountered a technical issue. Please try again in a moment."

/-- The fixed apology text of the simpler variant's `catch` branch. -/
def apologyGoldChatBot : String :=
  "Sorry, I encountered an error. Please try again."

/-- `KuberAI.sendMessage`, the whole operation with the network's
behaviour passed in as `outcome`: trim the composer; an empty result
is a no-op; otherwise append the user message, clear the composer,
show the typing placeholder, issue exactly one `/chat` request, and on
resolution remove the placeholder and append either the bot response
(optionally flagged) or the fixed apology.  The second component
collects every request issued. -/
def KuberAI.sendMessage (userId : String) (outcome : ChatOutcome)
    (st : ChatState) : ChatState × List ChatRequest :=
  let message := jsTrim st.composerValue
  if message = "" then (st, [])
  else
    let st1 := addMessage st message Sender.user false
    let st2 := { st1 with composerValue := "" }
    let st3 := showTypingIndicator st2
    let req : ChatRequest := ⟨message, userId⟩
    match outcome with
    | ChatOutcome.ok resp enc =>
      (addMessage (hideTypingIndicator st3) resp Sender.bot enc, [req])
    | ChatOutcome.error =>
      (addMessage (hideTypingIndicator st3) apologyKuberAI Sender.bot false, [req])

/-- `GoldChatBot.sendMessage`: identical control flow to the primary
variant, with its own apology text. -/
def GoldChatBot.sendMessage (userId : String) (outcome : ChatOutcome)
    (st : ChatState) : ChatState × List ChatRequest :=
  let message := jsTrim st.composerValue
  if message = "" then (st, [])
  else
    let st1 := addMessage st message Sender.user false
    let st2 := { st1 with composerValue := "" }
    let st3 := showTypingIndicator st2
    let req : ChatRequest := ⟨message, userId⟩
    match outcome with
    | ChatOutcome.ok resp enc =>
      (addMessage (hideTypingIndicator st3) resp Sender.bot enc, [req])
    | ChatOutcome.error =>
      (addMessage (hideTypingIndicator st3) apologyGoldChatBot Sender.bot false, [req])

/-- The purchase form as read through `FormData.get` (`none` models a
missing field, i.e. JavaScript `null`). -/
structure PurchaseForm where
  userName : Option String
  userEmail : Option String
  amount : Option String
deriving DecidableEq, Repr

/-- Body of the primary variant's `/purchase` POST. -/
structure PurchaseRequest where
  user_id : String
  user_name : String
  email : String
  amount_inr : JSNum
deriving DecidableEq, Repr

/-- Outcome of the synchronous validation phase of a purchase
submission: either a blocking alert that aborts the operation with no
request sent and no state changed, or the request that is issued. -/
inductive PurchaseStart (α : Type)
  | blocked (alertMsg : String)
  | send (data : α)
deriving DecidableEq, Repr

/-- `!field || field.trim() === ''` for a `FormData.get` result: the
empty string is the only falsy string, `null` (`none`) is falsy. -/
def isBlankField (o : Option String) : Bool :=
  match o with
  | none => true
  | some s => s == "" || jsTrim s == ""

/-- `o.getD ""`, for re-reading a field already known non-blank. -/
def strOrEmpty (o : Option String) : String := o.getD ""

/-- The validation phase of `KuberAI.processPurchase`: name required
non-blank, email required non-blank, amount required / numeric / > 0,
amount at least 830; each failure short-circuits with a blocking alert
and sends nothing.  On success the `/purchase` request body is built
from the trimmed fields. -/
def KuberAI.processPurchase (userId : String) (form : PurchaseForm) :
    PurchaseStart PurchaseRequest :=
  let amountINR : Option JSNum := form.amount.bind parseFloat
  if isBlankField form.userName then
    PurchaseStart.blocked "Please enter your full name"
  else if isBlankField form.userEmail then
    PurchaseStart.blocked "Please enter your email address"
  else if form.amount = none ∨ form.amount = some "" ∨ amountINR = none ∨
      amountINR.getD 0 ≤ 0 then
    PurchaseStart.blocked "Please enter a valid investment amount"
  else if amountINR.getD 0 < (830 : JSNum) then
    PurchaseStart.blocked "Minimum investment amount is ₹830"
  else
    PurchaseStart.send
      { user_id := userId, user_name := jsTrim (strOrEmpty form.userName),
        email := jsTrim (strOrEmpty form.userEmail), amount_inr := amountINR.getD 0 }

/-- Body of the simpler variant's `/purchase` POST (`amount_usd` is
`parseFloat(formData.get('amount'))`, so `none` models `NaN` from a
missing or non-numeric amount). -/
structure GBPurchaseRequest where
  user_id : String
  user_name : Option String
  email : Option String
  amount_usd : Option JSNum
deriving DecidableEq, Repr

/-- `GoldChatBot.processPurchase`: no validation phase at all — the
request is built straight from the form fields and issued
unconditionally. -/
def GoldChatBot.processPurchase (userId : String) (form : PurchaseForm) :
    PurchaseStart GBPurchaseRequest :=
  PurchaseStart.send
    { user_id := userId, user_name := form.userName, email := form.userEmail,
      amount_usd := form.amount.bind parseFloat }

/-- An application-level `/purchase` response body (a well-formed
HTTP 2xx response) as consumed by the client. -/
structure BackendResult where
  success : Bool
  transaction_id : String
  gold_grams : JSNum
  message : String
deriving DecidableEq, Repr

/-- Contents of the success modal as populated by
`KuberAI.showSuccessModal` (the exact values; the page renders the
amounts with locale grouping). -/
structure SuccessDetails where
  transaction_id : String
  gold_grams : JSNum
  amountINR : Option JSNum
  gstAmount : Option JSNum
  totalWithGST : Option JSNum
  pricePerGramText : String
deriving DecidableEq, Repr

/-- `KuberAI.showSuccessModal`: re-read the amount field, recompute
`gst = amount * 0.03` and `total = amount + gst` for display, and
populate the modal with the transaction id, the grams purchased, the
amount, the recomputed GST / total and the price per gram. -/
def KuberAI.showSuccessModal (goldPriceINR : JSNum) (amountFieldValue : String)
    (result : BackendResult) : SuccessDetails :=
  let amountINR := parseFloat amountFieldValue
  let gstAmount := amountINR.map fun a => a.mul gstRate
  let totalWithGST :=
    match amountINR, gstAmount with
    | some a, some g => some (a.add g)
    | _, _ => none
  { transaction_id := result.transaction_id, gold_grams := result.gold_grams,
    amountINR := amountINR, gstAmount := gstAmount, totalWithGST := totalWithGST,
    pricePerGramText := "₹" ++ toFixed 2 goldPriceINR }

/-- Observable effects of the response-handling tail of
`KuberAI.processPurchase`. -/
inductive Effect
  | closePurchaseModal
  | openSuccessModal (details : SuccessDetails)
  | addBotMessage (text : String)
  | refreshAnalytics
  | resetPurchaseForm
  | updateQuoteDisplay
  | alert (msg : String)
deriving DecidableEq, Repr

/-- The tail of `KuberAI.processPurchase` handling a well-formed
(HTTP 2xx) backend response: on the success flag, close the purchase
modal, populate and open the success modal, append the celebratory bot
message, refresh analytics, then reset the form and the quote display
— in that order; otherwise a single blocking alert with the backend
message (or the generic fallback). -/
def KuberAI.handlePurchaseResult (goldPriceINR : JSNum) (amountFieldValue : String)
    (result : BackendResult) : List Effect :=
  if result.success then
    [Effect.closePurchaseModal,
     Effect.openSuccessModal
       (KuberAI.showSuccessModal goldPriceINR amountFieldValue result),
     Effect.addBotMessage ("🎉 " ++ result.message),
     Effect.refreshAnalytics,
     Effect.resetPurchaseForm,
     Effect.updateQuoteDisplay]
  else
    [Effect.alert ("Investment processing failed: " ++
      (if result.message = "" then "Unknown error" else result.message))]

/-- One sidebar navigation item (`.nav-item`, with its `data-section`
attribute and whether it carries the `active` class). -/
structure NavItem where
  dataSection : String
  active : Bool
deriving DecidableEq, Repr

/-- One content subtree (`.content-section`, with its DOM `id` and
whether it carries the `active` class). -/
structure ContentSection where
  id : String
  active : Bool
deriving DecidableEq, Repr

/-- Navigation-related controller state. -/
structure NavState where
  navItems : List NavItem
  contentSections : List ContentSection
  sectionTitle : String
  sectionSubtitle : String
  currentSection : String
deriving DecidableEq, Repr

/-- The static `sectionData` lookup table built by
`KuberAI.setupNavigation`. -/
def sectionData (name : String) : Option (String × String) :=
  if name = "chat" then
    some ("AI Assistant",
      "Get intelligent gold investment advice powered by advanced AI")
  else if name = "analytics" then
    some ("Analytics Dashboard",
      "Track your investment performance and platform metrics")
  else if name = "portfolio" then
    some ("Portfolio Management",
      "Monitor your gold holdings and investment performance")
  else if name = "market" then
    some ("Market Intelligence",
      "Real-time gold market data and insights")
  else none

/-- Result of `KuberAI.switchSection`: the updated state with the
number of analytics refreshes triggered, or — when the section name is
not in the lookup table — the state at the moment the `TypeError` is
thrown (reading `.title` of `undefined`), after the nav items and
content sections have already been re-marked. -/
inductive SwitchResult
  | ok (st : NavState) (analyticsRefreshes : ℕ)
  | thrown (st : NavState)
deriving DecidableEq, Repr

/-- `KuberAI.switchSection`: clear `active` on every nav item and
content section while re-marking the ones matching `sectionName`, look
up the header texts (throwing on an unknown name), record the current
section, and refresh analytics exactly when the destination is
`analytics`. -/
def KuberAI.switchSection (st : NavState) (sectionName : String) : SwitchResult :=
  let navItems := st.navItems.map fun item =>
    { item with active := item.dataSection == sectionName }
  let contentSections := st.contentSections.map fun s =>
    { s with active := s.id == sectionName ++ "-section" }
  match sectionData sectionName with
  | none =>
    SwitchResult.thrown
      { st with navItems := navItems, contentSections := contentSections }
  | some data =>
    SwitchResult.ok
      { st with navItems := navItems, contentSections := contentSections,
                sectionTitle := data.1, sectionSubtitle := data.2,
                currentSection := sectionName }
      (if sectionName = "analytics" then 1 else 0)

/-- Modelled from the spec: a page state with the four nav items and
four content sections of the fixed section set (the HTML template is
not among the provided sources; the spec fixes the section set as
chat, analytics, portfolio and market, with exactly one active at a
time). -/
def demoPage : NavState :=
  { navItems := [⟨"chat", true⟩, ⟨"analytics", false⟩,
      ⟨"portfolio", false⟩, ⟨"market", false⟩],
    contentSections := [⟨"chat-section", true⟩, ⟨"analytics-section", false⟩,
      ⟨"portfolio-section", false⟩, ⟨"market-section", false⟩],
    sectionTitle := "AI Assistant",
    sectionSubtitle := "Get intelligent gold investment advice powered by advanced AI",
    currentSection := "chat" }

theorem JSNum.toRat_neg (a : JSNum) : a.neg.toRat = -a.toRat := by
  simp [JSNum.neg, JSNum.toRat, neg_div]

theorem JSNum.toRat_add (a b : JSNum) : (a.add b).toRat = a.toRat + b.toRat := by
  have ha : ((a.den : ℚ)) ≠ 0 := by exact_mod_cast a.den_pos.ne'
  have hb : ((b.den : ℚ)) ≠ 0 := by exact_mod_cast b.den_pos.ne'
  field_simp [JSNum.add, JSNum.toRat]

theorem JSNum.toRat_mul (a b : JSNum) : (a.mul b).toRat = a.toRat * b.toRat := by
  simp only [JSNum.mul, JSNum.toRat]
  push_cast
  rw [div_mul_div_comm]

theorem JSNum.toRat_div (a b : JSNum) (h : b.num ≠ 0) :
    (a.div b).toRat = a.toRat / b.toRat := by
  have ha : ((a.den : ℚ)) ≠ 0 := by exact_mod_cast a.den_pos.ne'
  have hb : ((b.den : ℚ)) ≠ 0 := by exact_mod_cast b.den_pos.ne'
  have hbq : ((b.num : ℚ)) ≠ 0 := by exact_mod_cast h
  simp only [JSNum.div, dif_neg h, JSNum.toRat]
  rcases lt_trichotomy b.num 0 with hneg | hzero | hpos
  · rw [Int.sign_eq_neg_one_of_neg hneg, abs_of_neg hneg]
    push_cast
    field_simp
  · exact absurd hzero h
  · rw [Int.sign_eq_one_of_pos hpos, abs_of_pos hpos]
    push_cast
    field_simp

theorem JSNum.lt_iff (a b : JSNum) : a < b ↔ a.toRat < b.toRat := by
  show a.num * b.den < b.num * a.den ↔ _
  rw [JSNum.toRat, JSNum.toRat,
    div_lt_div_iff₀ (by exact_mod_cast a.den_pos) (by exact_mod_cast b.den_pos)]
  exact_mod_cast Iff.rfl

theorem JSNum.le_iff (a b : JSNum) : a ≤ b ↔ a.toRat ≤ b.toRat := by
  show a.num * b.den ≤ b.num * a.den ↔ _
  rw [JSNum.toRat, JSNum.toRat,
    div_le_div_iff₀ (by exact_mod_cast a.den_pos) (by exact_mod_cast b.den_pos)]
  exact_mod_cast Iff.rfl

theorem JSNum.not_le_of_lt {a b : JSNum} (h : a < b) : ¬ b ≤ a := by
  show ¬ b.num * a.den ≤ a.num * b.den
  exact Int.not_le.mpr h

theorem JSNum.lt_of_not_le {a b : JSNum} (h : ¬ a ≤ b) : b < a := by
  show b.num * a.den < a.num * b.den
  exact Int.not_le.mp h

theorem contentSections_remark_length (l : List ContentSection)
    (f : ContentSection → Bool) :
    ((l.map fun s => { s with active := f s }).filter fun s => s.active).length
      = (l.filter f).length := by
  induction l with
  | nil => rfl
  | cons a t ih =>
    simp only [List.map_cons, List.filter_cons]
    cases h : f a
    · simpa [h] using ih
    · simpa [h] using ih

/-- C1 (amended): for every parsed amount > 0 and stored price > 0 the
quote computation renders `gst = amount * 0.03` and
`total = amount + gst` with 2 fixed decimal places and
`grams = amount / price` with 4 fixed decimal places; in particular,
for amount 5000 and price 5469.25 it renders gst 150.00,
total 5150.00 and grams 0.9142. -/
theorem updateGoldCalculation_quote :
    (∀ (p a : JSNum) (s : String), parseFloat (jsTrim s) = some a →
      0 < a → 0 < p →
      (KuberAI.updateGoldCalculation (some p) s).gstText
          = "₹" ++ toFixed 2 (a.mul gstRate) ∧
      (KuberAI.updateGoldCalculation (some p) s).totalText
          = "₹" ++ toFixed 2 (a.add (a.mul gstRate)) ∧
      (KuberAI.updateGoldCalculation (some p) s).goldAmountText
          = toFixed 4 (a.div p) ++ " grams (₹" ++ toFixed 2 a ++ ")") ∧
    (KuberAI.updateGoldCalculation (some fallbackPriceINR) "5000").gstText
        = "₹150.00" ∧
    (KuberAI.updateGoldCalculation (some fallbackPriceINR) "5000").totalText
        = "₹5150.00" ∧
    (KuberAI.updateGoldCalculation (some fallbackPriceINR) "5000").goldAmountText
        = "0.9142 grams (₹5000.00)" := by
  refine ⟨?_, by decide, by decide, by decide⟩
  intro p a s hparse ha hp
  have hp' : ¬ p ≤ 0 := JSNum.not_le_of_lt hp
  have ha' : ¬ a ≤ 0 := JSNum.not_le_of_lt ha
  simp only [KuberAI.updateGoldCalculation, hparse, if_neg hp', if_neg ha']
  exact ⟨trivial, trivial, trivial⟩

/-- C1 witness: the general statement applied at price 2000 and
amount-field text 1000. -/
theorem updateGoldCalculation_quote_witness :
    (KuberAI.updateGoldCalculation (some ⟨2000, 1, one_pos⟩) "1000").gstText
        = "₹" ++ toFixed 2 ((⟨1000, 1, one_pos⟩ : JSNum).mul gstRate) ∧
    (KuberAI.updateGoldCalculation (some ⟨2000, 1, one_pos⟩) "1000").goldAmountText
        = toFixed 4 ((⟨1000, 1, one_pos⟩ : JSNum).div ⟨2000, 1, one_pos⟩)
            ++ " grams (₹" ++ toFixed 2 (⟨1000, 1, one_pos⟩ : JSNum) ++ ")" := by
  have h := updateGoldCalculation_quote.1 ⟨2000, 1, one_pos⟩ ⟨1000, 1, one_pos⟩
    "1000" (by decide) (by decide) (by decide)
  exact ⟨h.1, h.2.2⟩

/-- C1 counterexample: at amount 5000 and price 5469.25 the grams
display, rounded to 4 places, is 0.9142, not the 0.9143 the claim
states. -/
theorem updateGoldCalculation_grams_example_ne :
    (KuberAI.updateGoldCalculation (some fallbackPriceINR) "5000").goldAmountText
        = "0.9142 grams (₹5000.00)" ∧
    (KuberAI.updateGoldCalculation (some fallbackPriceINR) "5000").goldAmountText
        ≠ "0.9143 grams (₹5000.00)" := by decide

/-- C5: for every amount-field content that is empty, not parseable as
a number, or parses to a value ≤ 0, the primary variant's quote
computation resets the three derived displays to the idle state.  (The
function is total — it never throws — and performs no request: its
entire effect is the returned `CalcResult`.) -/
theorem updateGoldCalculation_idle (price : Option JSNum) (s : String)
    (h : parseFloat (jsTrim s) = none ∨
         ∃ a, parseFloat (jsTrim s) = some a ∧ a ≤ 0) :
    (KuberAI.updateGoldCalculation price s).goldAmountText = "0 grams (₹0.00)" ∧
    (KuberAI.updateGoldCalculation price s).gstText = "₹0.00" ∧
    (KuberAI.updateGoldCalculation price s).totalText = "₹0.00" := by
  rcases h with h | ⟨a, hparse, ha⟩
  · simp only [KuberAI.updateGoldCalculation, h]
    exact ⟨trivial, trivial, trivial⟩
  · simp only [KuberAI.updateGoldCalculation, hparse, if_pos ha]
    exact ⟨trivial, trivial, trivial⟩

/-- C5 witness: the idle reset at the concrete input `-5` (and a
`NaN`-free stored price). -/
theorem updateGoldCalculation_idle_witness :
    (parseFloat (jsTrim "-5") = none ∨
      ∃ a, parseFloat (jsTrim "-5") = some a ∧ a ≤ 0) ∧
    (KuberAI.updateGoldCalculation none "-5").goldAmountText = "0 grams (₹0.00)" ∧
    (KuberAI.updateGoldCalculation none "-5").gstText = "₹0.00" ∧
    (KuberAI.updateGoldCalculation none "-5").totalText = "₹0.00" :=
  ⟨Or.inr ⟨⟨-5, 1, one_pos⟩, by decide, by decide⟩,
   updateGoldCalculation_idle none "-5"
     (Or.inr ⟨⟨-5, 1, one_pos⟩, by decide, by decide⟩)⟩

/-- C2 (amended): in the primary variant the stored gold price is
positive before any grams calculation is displayed — a missing, `NaN`
or non-positive stored price is replaced by the hardcoded fallback
before dividing, the displayed grams are computed from the guarded
stored price, and a failed price fetch re-arms the fallback.  (The
simpler variant has no such guard, see the counterexample.) -/
theorem kuberai_price_guard :
    (∀ (price : Option JSNum) (s : String),
        0 < (KuberAI.updateGoldCalculation price s).goldPriceINR) ∧
    (∀ (price : Option JSNum) (s : String),
        (price = none ∨ ∃ p, price = some p ∧ p ≤ 0) →
        (KuberAI.updateGoldCalculation price s).goldPriceINR = fallbackPriceINR) ∧
    (∀ (price : Option JSNum) (s : String) (a : JSNum),
        parseFloat (jsTrim s) = some a → 0 < a →
        (KuberAI.updateGoldCalculation price s).goldAmountText
          = toFixed 4 (a.div (KuberAI.updateGoldCalculation price s).goldPriceINR)
              ++ " grams (₹" ++ toFixed 2 a ++ ")") ∧
    (∀ price, KuberAI.updateGoldPriceOnError price = some fallbackPriceINR) := by
  have hguard : ∀ (price : Option JSNum) (s : String),
      0 < (KuberAI.updateGoldCalculation price s).goldPriceINR := by
    intro price s
    rcases price with _ | p
    · cases hp : parseFloat (jsTrim s) with
      | none => simp only [KuberAI.updateGoldCalculation, hp]; decide
      | some a =>
        by_cases ha : a ≤ 0
        · simp only [KuberAI.updateGoldCalculation, hp, if_pos ha]; decide
        · simp only [KuberAI.updateGoldCalculation, hp, if_neg ha]; decide
    · by_cases hle : p ≤ 0
      · cases hp : parseFloat (jsTrim s) with
        | none => simp only [KuberAI.updateGoldCalculation, hp, if_pos hle]; decide
        | some a =>
          by_cases ha : a ≤ 0
          · simp only [KuberAI.updateGoldCalculation, hp, if_pos hle, if_pos ha]; decide
          · simp only [KuberAI.updateGoldCalculation, hp, if_pos hle, if_neg ha]; decide
      · have hlt : 0 < p := JSNum.lt_of_not_le hle
        cases hp : parseFloat (jsTrim s) with
        | none => simpa only [KuberAI.updateGoldCalculation, hp, if_neg hle] using hlt
        | some a =>
          by_cases ha : a ≤ 0
          · simpa only [KuberAI.updateGoldCalculation, hp, if_neg hle, if_pos ha] using hlt
          · simpa only [KuberAI.updateGoldCalculation, hp, if_neg hle, if_neg ha] using hlt
  refine ⟨hguard, ?_, ?_, fun _ => rfl⟩
  · intro price s h
    rcases h with rfl | ⟨p, rfl, hle⟩
    · cases hp : parseFloat (jsTrim s) with
      | none => simp only [KuberAI.updateGoldCalculation, hp]
      | some a =>
        by_cases ha : a ≤ 0
        · simp only [KuberAI.updateGoldCalculation, hp, if_pos ha]
        · simp only [KuberAI.updateGoldCalculation, hp, if_neg ha]
    · cases hp : parseFloat (jsTrim s) with
      | none => simp only [KuberAI.updateGoldCalculation, hp, if_pos hle]
      | some a =>
        by_cases ha : a ≤ 0
        · simp only [KuberAI.updateGoldCalculation, hp, if_pos hle, if_pos ha]
        · simp only [KuberAI.updateGoldCalculation, hp, if_pos hle, if_neg ha]
  · intro price s a hparse ha
    have ha' : ¬ a ≤ 0 := JSNum.not_le_of_lt ha
    rcases price with _ | p
    · simp only [KuberAI.updateGoldCalculation, hparse, if_neg ha']
    · by_cases hle : p ≤ 0
      · simp only [KuberAI.updateGoldCalculation, hparse, if_pos hle, if_neg ha']
      · simp only [KuberAI.updateGoldCalculation, hparse, if_neg hle, if_neg ha']

/-- C2 witness: the guard applied with a stored price of 0 and
amount-field text 5000. -/
theorem kuberai_price_guard_witness :
    ((some ⟨0, 1, one_pos⟩ : Option JSNum) = none ∨
      ∃ p, (some ⟨0, 1, one_pos⟩ : Option JSNum) = some p ∧ p ≤ 0) ∧
    (KuberAI.updateGoldCalculation (some ⟨0, 1, one_pos⟩) "5000").goldPriceINR
        = fallbackPriceINR ∧
    0 < (KuberAI.updateGoldCalculation (some ⟨0, 1, one_pos⟩) "5000").goldPriceINR :=
  ⟨Or.inr ⟨⟨0, 1, one_pos⟩, rfl, by decide⟩,
   kuberai_price_guard.2.1 (some ⟨0, 1, one_pos⟩) "5000"
     (Or.inr ⟨⟨0, 1, one_pos⟩, rfl, by decide⟩),
   kuberai_price_guard.1 (some ⟨0, 1, one_pos⟩) "5000"⟩

/-- C2 counterexample: the simpler variant does not substitute the
fallback — with a stored price of 0 its quote computation renders the
IEEE `Infinity` display instead of the quote the fallback price 65.50
would give, and its failed price fetch leaves the zero price in
place. -/
theorem goldchatbot_no_price_guard :
    GoldChatBot.updateGoldCalculation (some ⟨0, 1, one_pos⟩) "5000"
        = "Infinity grams" ∧
    GoldChatBot.updateGoldCalculation (some initialPriceUSD) "5000"
        = "76.3359 grams" ∧
    GoldChatBot.updateGoldCalculation (some ⟨0, 1, one_pos⟩) "5000"
        ≠ GoldChatBot.updateGoldCalculation (some initialPriceUSD) "5000" ∧
    GoldChatBot.updateGoldPriceOnError (some ⟨0, 1, one_pos⟩)
        = some ⟨0, 1, one_pos⟩ := by decide

/-- C3: every purchase submission with a blank name, blank email,
missing / non-numeric / non-positive amount, or amount below the 830
minimum is blocked with an alert: the validation phase returns before
any request is built, so nothing is sent and no state changes. -/
theorem processPurchase_validation (userId : String) (form : PurchaseForm)
    (h : isBlankField form.userName = true ∨ isBlankField form.userEmail = true ∨
         form.amount = none ∨ form.amount = some "" ∨
         form.amount.bind parseFloat = none ∨
         (∃ v, form.amount.bind parseFloat = some v ∧ v ≤ 0) ∨
         (∃ v, form.amount.bind parseFloat = some v ∧ v < (830 : JSNum))) :
    ∃ msg, KuberAI.processPurchase userId form = PurchaseStart.blocked msg := by
  simp only [KuberAI.processPurchase]
  split_ifs with h1 h2 h3 h4
  · exact ⟨_, rfl⟩
  · exact ⟨_, rfl⟩
  · exact ⟨_, rfl⟩
  · exact ⟨_, rfl⟩
  · exfalso
    rcases h with hb | hb | hb | hb | hb | ⟨v, hv, hvle⟩ | ⟨v, hv, hvlt⟩
    · exact h1 hb
    · exact h2 hb
    · exact h3 (Or.inl hb)
    · exact h3 (Or.inr (Or.inl hb))
    · exact h3 (Or.inr (Or.inr (Or.inl hb)))
    · refine h3 (Or.inr (Or.inr (Or.inr ?_)))
      rw [hv]
      exact hvle
    · refine h4 ?_
      rw [hv]
      exact hvlt

/-- C3 witness: a submission with a valid name and email and amount
500 — below the 830 minimum — is blocked. -/
theorem processPurchase_validation_witness :
    (∃ v, (some "500" : Option String).bind parseFloat = some v ∧
        v < (830 : JSNum)) ∧
    ∃ msg, KuberAI.processPurchase "kuber_demo"
        ⟨some "Asha Rao", some "asha@example.com", some "500"⟩
        = PurchaseStart.blocked msg :=
  ⟨⟨⟨500, 1, one_pos⟩, by decide, by decide⟩,
   processPurchase_validation "kuber_demo"
     ⟨some "Asha Rao", some "asha@example.com", some "500"⟩
     (Or.inr (Or.inr (Or.inr (Or.inr (Or.inr (Or.inr
       ⟨⟨500, 1, one_pos⟩, by decide, by decide⟩))))))⟩

/-- C4: a purchase response with the success flag produces, in order:
close the purchase modal; populate and open the success modal with the
transaction id, grams purchased, amount, recomputed GST and total, and
price per gram; append the celebratory bot message; trigger one
analytics refresh; reset the form and the quote display. -/
theorem handlePurchaseResult_success (p : JSNum) (s : String) (r : BackendResult)
    (h : r.success = true) :
    KuberAI.handlePurchaseResult p s r =
      [Effect.closePurchaseModal,
       Effect.openSuccessModal (KuberAI.showSuccessModal p s r),
       Effect.addBotMessage ("🎉 " ++ r.message),
       Effect.refreshAnalytics,
       Effect.resetPurchaseForm,
       Effect.updateQuoteDisplay] ∧
    (KuberAI.showSuccessModal p s r).transaction_id = r.transaction_id ∧
    (KuberAI.showSuccessModal p s r).gold_grams = r.gold_grams ∧
    (KuberAI.showSuccessModal p s r).amountINR = parseFloat s ∧
    (KuberAI.showSuccessModal p s r).gstAmount
        = (parseFloat s).map (fun a => a.mul gstRate) ∧
    (∀ a, parseFloat s = some a →
        (KuberAI.showSuccessModal p s r).totalWithGST
          = some (a.add (a.mul gstRate))) ∧
    (KuberAI.showSuccessModal p s r).pricePerGramText = "₹" ++ toFixed 2 p := by
  refine ⟨?_, rfl, rfl, rfl, rfl, ?_, rfl⟩
  · simp only [KuberAI.handlePurchaseResult, if_pos h]
  · intro a ha
    simp [KuberAI.showSuccessModal, ha]

/-- C4 witness: the success path at a concrete response. -/
theorem handlePurchaseResult_success_witness :
    (({ success := true, transaction_id := "TXN1", gold_grams := ⟨2, 1, one_pos⟩,
        message := "Done" } : BackendResult)).success = true ∧
    KuberAI.handlePurchaseResult ⟨100, 1, one_pos⟩ "1000"
        { success := true, transaction_id := "TXN1", gold_grams := ⟨2, 1, one_pos⟩,
          message := "Done" }
      = [Effect.closePurchaseModal,
         Effect.openSuccessModal (KuberAI.showSuccessModal ⟨100, 1, one_pos⟩ "1000"
           { success := true, transaction_id := "TXN1", gold_grams := ⟨2, 1, one_pos⟩,
             message := "Done" }),
         Effect.addBotMessage ("🎉 " ++ "Done"),
         Effect.refreshAnalytics,
         Effect.resetPurchaseForm,
         Effect.updateQuoteDisplay] :=
  ⟨rfl,
   (handlePurchaseResult_success ⟨100, 1, one_pos⟩ "1000"
     { success := true, transaction_id := "TXN1", gold_grams := ⟨2, 1, one_pos⟩,
       message := "Done" } rfl).1⟩

/-- C6: a composer whose content trims to the empty string makes the
send-message operation of both variants a no-op: the state (chat log,
composer, typing indicator) is returned unchanged and no request is
issued. -/
theorem sendMessage_blank_noop (userId : String) (outcome : ChatOutcome)
    (st : ChatState) (h : jsTrim st.composerValue = "") :
    KuberAI.sendMessage userId outcome st = (st, []) ∧
    GoldChatBot.sendMessage userId outcome st = (st, []) := by
  constructor
  · simp [KuberAI.sendMessage, h]
  · simp [GoldChatBot.sendMessage, h]

/-- C6 witness: a whitespace-only composer. -/
theorem sendMessage_blank_noop_witness :
    jsTrim "   " = "" ∧
    KuberAI.sendMessage "kuber_u1" ChatOutcome.error ⟨[], "   ", false⟩
        = (⟨[], "   ", false⟩, []) ∧
    GoldChatBot.sendMessage "kuber_u1" ChatOutcome.error ⟨[], "   ", false⟩
        = (⟨[], "   ", false⟩, []) :=
  ⟨by decide,
   (sendMessage_blank_noop "kuber_u1" ChatOutcome.error ⟨[], "   ", false⟩
     (by decide)).1,
   (sendMessage_blank_noop "kuber_u1" ChatOutcome.error ⟨[], "   ", false⟩
     (by decide)).2⟩

/-- C7: when the chat request fails, both variants remove the typing
placeholder and append exactly one fixed apology bot message after the
user's message; exactly one request was issued (no retry), and the
operation is total, so no raw error or exception surfaces. -/
theorem sendMessage_error (userId : String) (st : ChatState)
    (h : jsTrim st.composerValue ≠ "") :
    KuberAI.sendMessage userId ChatOutcome.error st
        = ({ messages := st.messages ++
               [⟨jsTrim st.composerValue, Sender.user, false⟩,
                ⟨apologyKuberAI, Sender.bot, false⟩],
             composerValue := "", typingIndicator := false },
           [⟨jsTrim st.composerValue, userId⟩]) ∧
    GoldChatBot.sendMessage userId ChatOutcome.error st
        = ({ messages := st.messages ++
               [⟨jsTrim st.composerValue, Sender.user, false⟩,
                ⟨apologyGoldChatBot, Sender.bot, false⟩],
             composerValue := "", typingIndicator := false },
           [⟨jsTrim st.composerValue, userId⟩]) := by
  constructor
  · simp [KuberAI.sendMessage, addMessage, showTypingIndicator,
      hideTypingIndicator, h]
  · simp [GoldChatBot.sendMessage, addMessage, showTypingIndicator,
      hideTypingIndicator, h]

/-- C7 witness: the failure path at a concrete non-empty message. -/
theorem sendMessage_error_witness :
    jsTrim "hello" ≠ "" ∧
    KuberAI.sendMessage "kuber_u1" ChatOutcome.error ⟨[], "hello", false⟩
        = ({ messages := [] ++
               [⟨jsTrim "hello", Sender.user, false⟩,
                ⟨apologyKuberAI, Sender.bot, false⟩],
             composerValue := "", typingIndicator := false },
           [⟨jsTrim "hello", "kuber_u1"⟩]) :=
  ⟨by decide,
   (sendMessage_error "kuber_u1" ⟨[], "hello", false⟩ (by decide)).1⟩

/-- C8: switching to a section of the lookup table re-marks the nav
and content candidates so that exactly one content subtree is active
afterwards (the one whose id matches; all others are cleared), sets
the header title and subtitle from the table, and triggers exactly one
analytics refresh iff the destination is the analytics section. -/
theorem switchSection_defined (st : NavState) (name title subtitle : String)
    (hname : sectionData name = some (title, subtitle))
    (hone : (st.contentSections.filter
        fun s => s.id == name ++ "-section").length = 1) :
    ∃ st' : NavState,
      KuberAI.switchSection st name
          = SwitchResult.ok st' (if name = "analytics" then 1 else 0) ∧
      (st'.contentSections.filter fun s => s.active).length = 1 ∧
      st'.sectionTitle = title ∧ st'.sectionSubtitle = subtitle ∧
      st'.currentSection = name := by
  unfold KuberAI.switchSection
  rw [hname]
  refine ⟨_, rfl, ?_, rfl, rfl, rfl⟩
  rw [contentSections_remark_length st.contentSections
    (fun s => s.id == name ++ "-section")]
  exact hone

/-- C8 witness: switching the spec-modelled page to analytics. -/
theorem switchSection_defined_witness :
    sectionData "analytics" = some ("Analytics Dashboard",
      "Track your investment performance and platform metrics") ∧
    (demoPage.contentSections.filter
        fun s => s.id == "analytics" ++ "-section").length = 1 ∧
    ∃ st' : NavState,
      KuberAI.switchSection demoPage "analytics"
          = SwitchResult.ok st' (if "analytics" = "analytics" then 1 else 0) ∧
      (st'.contentSections.filter fun s => s.active).length = 1 ∧
      st'.sectionTitle = "Analytics Dashboard" ∧
      st'.sectionSubtitle = "Track your investment performance and platform metrics" ∧
      st'.currentSection = "analytics" :=
  ⟨by decide, by decide,
   switchSection_defined demoPage "analytics" _ _ (by decide) (by decide)⟩

/-- C9: the simpler variant's purchase submission performs no
validation: for every form content — including blank name, blank email
and a non-numeric amount (sent as a `NaN` `amount_usd`) — the request
is built from the raw fields and issued unconditionally. -/
theorem goldchatbot_processPurchase_unconditional :
    (∀ (userId : String) (form : PurchaseForm),
        ∃ d : GBPurchaseRequest,
          GoldChatBot.processPurchase userId form = PurchaseStart.send d ∧
          d.user_id = userId ∧ d.user_name = form.userName ∧
          d.email = form.userEmail ∧
          d.amount_usd = form.amount.bind parseFloat) ∧
    GoldChatBot.processPurchase "user_x" ⟨some "", some "", some "abc"⟩
      = PurchaseStart.send ⟨"user_x", some "", some "", none⟩ :=
  ⟨fun userId form => ⟨_, rfl, rfl, rfl, rfl, rfl⟩, by decide⟩

/-- C10: switching to a section name outside the lookup table first
clears the active mark from every nav item and every content section
(no candidate matches an unknown name) and then throws reading the
header lookup, leaving zero sections visible and the header and
current-section fields unchanged. -/
theorem switchSection_unknown (st : NavState) (name : String)
    (hnone : sectionData name = none)
    (hnav : ∀ i ∈ st.navItems, i.dataSection ≠ name)
    (hcs : ∀ s ∈ st.contentSections, s.id ≠ name ++ "-section") :
    ∃ st' : NavState,
      KuberAI.switchSection st name = SwitchResult.thrown st' ∧
      (∀ i ∈ st'.navItems, i.active = false) ∧
      (∀ s ∈ st'.contentSections, s.active = false) ∧
      st'.sectionTitle = st.sectionTitle ∧
      st'.sectionSubtitle = st.sectionSubtitle ∧
      st'.currentSection = st.currentSection := by
  unfold KuberAI.switchSection
  rw [hnone]
  refine ⟨_, rfl, ?_, ?_, rfl, rfl, rfl⟩
  · intro i hi
    rw [List.mem_map] at hi
    obtain ⟨j, hj, rfl⟩ := hi
    exact beq_eq_false_iff_ne.mpr (hnav j hj)
  · intro s hs
    rw [List.mem_map] at hs
    obtain ⟨t, ht, rfl⟩ := hs
    exact beq_eq_false_iff_ne.mpr (hcs t ht)

/-- C10 witness: switching the spec-modelled page to the unknown
section name `settings`. -/
theorem switchSection_unknown_witness :
    sectionData "settings" = none ∧
    ∃ st' : NavState,
      KuberAI.switchSection demoPage "settings" = SwitchResult.thrown st' ∧
      (∀ i ∈ st'.navItems, i.active = false) ∧
      (∀ s ∈ st'.contentSections, s.active = false) ∧
      st'.sectionTitle = demoPage.sectionTitle ∧
      st'.sectionSubtitle = demoPage.sectionSubtitle ∧
      st'.currentSection = demoPage.currentSection :=
  ⟨by decide,
   switchSection_unknown demoPage "settings" (by decide) (by decide) (by decide)⟩
